import Mathlib

/-!
Shallow embedding of the Kibala C2PA certificate-signing and privacy-gateway
server (src/server/server.py and src/server/generate_root_ca.py).

Modelling conventions:
- X.509 objects from the `cryptography` library are modelled structurally:
  names are lists of (attribute, value) string pairs, public keys are opaque
  naturals, and the SHA-1 SPKI digest that both
  `SubjectKeyIdentifier.from_public_key` and
  `AuthorityKeyIdentifier.from_issuer_public_key` compute over a public key is
  abstracted by a single function `keyDigest` (the library computes the same
  digest in both constructors, which is the only fact the development uses).
- Timestamps are integers counting minutes, so `timedelta(minutes=5)` is `5`
  and `timedelta(days=365)` is `365 * 1440`.
- Fallible external library calls (PEM parsing of the CSR, the c2pa manifest
  reader, the Pillow re-encode, the c2pa signer) are passed in as `Except` /
  outcome parameters; the server code itself is modelled exactly.
- HTTP responses are `HttpResult`: either a payload or an
  `HTTPException(status_code, detail)`.
-/

namespace Kibala

/-- Model of `cryptography.x509.Name`: an ordered list of
(attribute-type, value) pairs, e.g. `("CN", "Kibala Root CA")`. -/
abbrev X509Name := List (String × String)

/-- Model of `cryptography.x509.KeyUsage` with its nine boolean flags. -/
structure KeyUsage where
  digital_signature : Bool
  content_commitment : Bool
  key_encipherment : Bool
  data_encipherment : Bool
  key_agreement : Bool
  key_cert_sign : Bool
  crl_sign : Bool
  encipher_only : Bool
  decipher_only : Bool
deriving DecidableEq

/-- Model of `cryptography.x509.BasicConstraints`. -/
structure BasicConstraints where
  ca : Bool
  path_length : Option Nat
deriving DecidableEq

/-- Dotted OID string of `ExtendedKeyUsageOID.EMAIL_PROTECTION`. -/
def EMAIL_PROTECTION : String := "1.3.6.1.5.5.7.3.4"

/-- Abstraction of the SPKI digest computed by the `cryptography` library for
both `SubjectKeyIdentifier.from_public_key(pk)` and
`AuthorityKeyIdentifier.from_issuer_public_key(pk)` (the same SHA-1 digest of
the DER-encoded public key in both cases; a trusted-library primitive). The
development only uses that the two derivations agree on the same key. -/
def keyDigest (pk : Nat) : Nat := pk

/-- The payload of one X.509 extension, covering exactly the extension classes
the two source files add. -/
inductive ExtensionValue where
  | basicConstraints (bc : BasicConstraints)
  | keyUsage (ku : KeyUsage)
  | extendedKeyUsage (oids : List String)
  | subjectKeyIdentifier (digest : Nat)
  | authorityKeyIdentifier (key_identifier : Nat)
deriving DecidableEq

/-- An extension together with its criticality flag, as passed to
`CertificateBuilder.add_extension(value, critical)`. -/
structure Extension where
  value : ExtensionValue
  critical : Bool
deriving DecidableEq

/-- Model of a built `cryptography.x509.Certificate`. The extension list keeps
the order of the `add_extension` calls in the source. -/
structure Certificate where
  subject : X509Name
  issuer : X509Name
  public_key : Nat
  serial_number : Nat
  not_valid_before : Int
  not_valid_after : Int
  extensions : List Extension
deriving DecidableEq

/-! ### generate_root_ca.py -/

/-- `VALIDITY_DAYS = 3650` from generate_root_ca.py line 29. -/
def VALIDITY_DAYS : Int := 3650

/-- The fixed subject (= issuer) name of generate_root_ca.py lines 38-44. -/
def rootCaSubject : X509Name :=
  [("C", "DE"), ("ST", "Lower Saxony"), ("L", "Osnabrueck"),
   ("O", "Kibala"), ("CN", "Kibala Root CA")]

/-- `generate()` from generate_root_ca.py lines 32-84: builds the self-signed
root certificate. `root_pub` stands for `root_key.public_key()`, `serial` for
`x509.random_serial_number()`, `now` for `datetime.datetime.now(datetime.UTC)`
in minutes. (The file-writing part performs no further computation on the
certificate.) -/
def generate (root_pub : Nat) (serial : Nat) (now : Int) : Certificate :=
  { subject := rootCaSubject
    issuer := rootCaSubject
    public_key := root_pub
    serial_number := serial
    not_valid_before := now - 5
    not_valid_after := now + VALIDITY_DAYS * 1440
    extensions :=
      [ ⟨.basicConstraints ⟨true, none⟩, true⟩,
        ⟨.keyUsage
          { digital_signature := false
            content_commitment := false
            key_encipherment := false
            data_encipherment := false
            key_agreement := false
            key_cert_sign := true
            crl_sign := true
            encipher_only := false
            decipher_only := false }, true⟩,
        ⟨.subjectKeyIdentifier (keyDigest root_pub), false⟩ ] }

/-! ### server.py startup: loading and checking the root CA (lines 53-73) -/

/-- Outcome of opening and parsing the two root-CA files: either a
`FileNotFoundError`, or the loaded certificate plus the private key (modelled
by its public half). -/
inductive LoadResult where
  | fileNotFound
  | loaded (root_cert : Certificate) (root_key_pub : Nat)

/-- What the startup block does to the process: `exit(code)` before any
request is served, or proceed to serve requests (`warned = true` when a
root-CA invariant warning was printed). -/
inductive StartupOutcome where
  | fatalExit (code : Nat)
  | serving (warned : Bool)
deriving DecidableEq

/-- Whether the process goes on to serve requests under this outcome. -/
def StartupOutcome.servesRequests : StartupOutcome → Bool
  | .fatalExit _ => false
  | .serving _ => true

/-- Model of `extensions.get_extension_for_class(x509.BasicConstraints)`:
returns the first BasicConstraints extension, `none` standing for the
`ExtensionNotFound` exception. -/
def get_basic_constraints : List Extension → Option BasicConstraints
  | [] => none
  | e :: rest =>
    match e.value with
    | .basicConstraints bc => some bc
    | _ => get_basic_constraints rest

/-- The root-CA loading block of server.py lines 53-73: a missing file is
`exit(1)`; a loaded certificate whose BasicConstraints is absent or has
`ca=False` only prints a warning and the process keeps serving. -/
def load_root_ca (load : LoadResult) : StartupOutcome :=
  match load with
  | .fileNotFound => .fatalExit 1
  | .loaded cert _ =>
    match get_basic_constraints cert.extensions with
    | some bc => .serving (!bc.ca)
    | none => .serving true

/-! ### server.py: the gateway end-entity certificate (lines 80-116) -/

/-- The fixed gateway subject of server.py lines 84-88. -/
def gatewaySubject : X509Name :=
  [("CN", "imanmontajabi.com Gateway"), ("O", "imanmontajabi"), ("C", "DE")]

/-- `gateway_cert` from server.py lines 82-116. Note that lines 92 and 93
each call `datetime.datetime.now(datetime.UTC)` separately, so the builder
receives two clock readings `now1` (for not_valid_before) and `now2` (for
not_valid_after). -/
def gateway_cert (root_cert : Certificate) (gateway_pub root_key_pub : Nat)
    (serial : Nat) (now1 now2 : Int) : Certificate :=
  { subject := gatewaySubject
    issuer := root_cert.subject
    public_key := gateway_pub
    serial_number := serial
    not_valid_before := now1 - 5
    not_valid_after := now2 + 365 * 1440
    extensions :=
      [ ⟨.basicConstraints ⟨false, none⟩, true⟩,
        ⟨.keyUsage
          { digital_signature := true
            content_commitment := false
            key_encipherment := false
            data_encipherment := false
            key_agreement := false
            key_cert_sign := false
            crl_sign := false
            encipher_only := false
            decipher_only := false }, true⟩,
        ⟨.extendedKeyUsage [EMAIL_PROTECTION], false⟩,
        ⟨.subjectKeyIdentifier (keyDigest gateway_pub), false⟩,
        ⟨.authorityKeyIdentifier (keyDigest root_key_pub), false⟩ ] }

/-! ### server.py: the certificate-signing endpoint (lines 161-242) -/

/-- Model of a parsed certificate signing request. `signature_valid` records
whether the CSR's embedded self-signature verifies under its public key (the
`csr.is_signature_valid` property of the library object); server.py parses
the CSR with `load_pem_x509_csr`, which does not check this. -/
structure CSR where
  subject : X509Name
  public_key : Nat
  signature_valid : Bool
deriving DecidableEq

/-- Model of `SigningResponse` (server.py lines 152-156), with the built
certificate kept structurally instead of PEM-encoded: the chain is end-entity
first, root second. -/
structure SigningResponse where
  certificate : Certificate
  certificate_chain : List Certificate
  certificate_id : String
  serial_number : Nat
  expires_at : Int
deriving DecidableEq

/-- An HTTP endpoint result: a payload, or `HTTPException(status_code, detail)`. -/
inductive HttpResult (α : Type) where
  | ok (value : α)
  | httpError (status_code : Nat) (detail : String)
deriving DecidableEq

/-- Whether the result is a success payload (HTTP 200). -/
def HttpResult.isOk {α : Type} : HttpResult α → Bool
  | .ok _ => true
  | .httpError _ _ => false

/-- Whether a status code is in the client-error category 4xx. -/
def isClientErrorStatus (c : Nat) : Bool := decide (400 ≤ c) && decide (c < 500)

/-- Whether a status code is in the server-error category 5xx. -/
def isServerErrorStatus (c : Nat) : Bool := decide (500 ≤ c) && decide (c < 600)

/-- The happy path of `sign_csr` (server.py lines 164-238) on an already
parsed CSR: build the end-entity certificate with the five C2PA extensions,
sign it with the root key, and return the chain. `serial` stands for
`x509.random_serial_number()`, `now` for
`datetime.datetime.now(datetime.UTC)` in minutes, `cert_id` for
`str(uuid.uuid4())`. -/
def sign_csr_body (csr : CSR) (root_cert : Certificate) (root_key_pub : Nat)
    (serial : Nat) (now : Int) (cert_id : String) : SigningResponse :=
  let valid_from := now - 5
  let valid_to := valid_from + 365 * 1440
  let certificate : Certificate :=
    { subject := csr.subject
      issuer := root_cert.subject
      public_key := csr.public_key
      serial_number := serial
      not_valid_before := valid_from
      not_valid_after := valid_to
      extensions :=
        [ ⟨.basicConstraints ⟨false, none⟩, true⟩,
          ⟨.keyUsage
            { digital_signature := true
              content_commitment := false
              key_encipherment := false
              data_encipherment := false
              key_agreement := false
              key_cert_sign := false
              crl_sign := false
              encipher_only := false
              decipher_only := false }, true⟩,
          ⟨.extendedKeyUsage [EMAIL_PROTECTION], false⟩,
          ⟨.subjectKeyIdentifier (keyDigest csr.public_key), false⟩,
          ⟨.authorityKeyIdentifier (keyDigest root_key_pub), false⟩ ] }
  { certificate := certificate
    certificate_chain := [certificate, root_cert]
    certificate_id := cert_id
    serial_number := serial
    expires_at := valid_to }

/-- `sign_csr` (server.py lines 161-242). `parsed` is the outcome of
`x509.load_pem_x509_csr(req.csr.encode("utf-8"))` together with public-key
extraction. The whole body sits in one `try/except Exception` whose handler
raises `HTTPException(status_code=500, detail=str(e))`, so every failure —
including a CSR parse failure — surfaces as HTTP 500. -/
def sign_csr (parsed : Except String CSR) (root_cert : Certificate)
    (root_key_pub : Nat) (serial : Nat) (now : Int) (cert_id : String) :
    HttpResult SigningResponse :=
  match parsed with
  | .error e => .httpError 500 e
  | .ok csr => .ok (sign_csr_body csr root_cert root_key_pub serial now cert_id)

/-- Modelled from the spec: the "mandatory extension set, all non-negotiable"
of spec §3 — `BasicConstraints(isCA=false)` critical,
`KeyUsage(digitalSignature=true, all else false)` critical,
`ExtendedKeyUsage(emailProtection)` non-critical, `SubjectKeyIdentifier`
derived from the certificate's own public key, `AuthorityKeyIdentifier`
derived from the Trust Root's public key. Stated from the spec's words to be
compared against the extension lists the code builds. -/
def specMandatedExtensions (own_key_digest root_key_digest : Nat) : List Extension :=
  [ ⟨.basicConstraints ⟨false, none⟩, true⟩,
    ⟨.keyUsage
      { digital_signature := true
        content_commitment := false
        key_encipherment := false
        data_encipherment := false
        key_agreement := false
        key_cert_sign := false
        crl_sign := false
        encipher_only := false
        decipher_only := false }, true⟩,
    ⟨.extendedKeyUsage [EMAIL_PROTECTION], false⟩,
    ⟨.subjectKeyIdentifier own_key_digest, false⟩,
    ⟨.authorityKeyIdentifier root_key_digest, false⟩ ]

/-- First SubjectKeyIdentifier value in an extension list, if any. -/
def find_subject_key_identifier : List Extension → Option Nat
  | [] => none
  | e :: rest =>
    match e.value with
    | .subjectKeyIdentifier d => some d
    | _ => find_subject_key_identifier rest

/-- First AuthorityKeyIdentifier value in an extension list, if any. -/
def find_authority_key_identifier : List Extension → Option Nat
  | [] => none
  | e :: rest =>
    match e.value with
    | .authorityKeyIdentifier d => some d
    | _ => find_authority_key_identifier rest

/-! ### server.py: the publish (redaction gateway) endpoint (lines 248-407) -/

/-- The parts of the parsed c2pa manifest-store JSON that publish_photo
inspects. `manifests = none` models a JSON object without a "manifests" key,
`some l` a key whose value has the entries of `l`; likewise
`validation_status` models presence/absence of the "validation_status" key. -/
structure ManifestStore where
  manifests : Option (List String)
  validation_status : Option (List String)
  active_manifest : Option String
deriving DecidableEq

/-- Outcome of `c2pa.Reader(...)` + `json.loads` on the uploaded file
(server.py lines 274-283): an exception message, or the parsed store. -/
inductive ReadOutcome where
  | failure (message : String)
  | ok (store : ManifestStore)

/-- One entry of the "actions" list in the gateway manifest's c2pa.actions
assertion (server.py lines 345-351). -/
structure ActionEntry where
  action : String
  softwareAgent : String
  when : String
deriving DecidableEq

/-- One entry of the "author" list in the CreativeWork assertion
(server.py lines 358-364). -/
structure AuthorEntry where
  author_type : String
  name : String
deriving DecidableEq

/-- The data payload of one manifest assertion. -/
inductive AssertionData where
  | actions (entries : List ActionEntry)
  | creativeWork (authors : List AuthorEntry)
deriving DecidableEq

/-- One manifest assertion: a label and its data. -/
structure Assertion where
  label : String
  data : AssertionData
deriving DecidableEq

/-- The fresh manifest publish_photo hands to the c2pa Builder.
`ingredients = none` models that the dict has no "ingredients" key at all. -/
structure GatewayManifest where
  claim_generator : String
  claim_generator_info : List (String × String)
  title : String
  assertions : List Assertion
  ingredients : Option (List String)
deriving DecidableEq

/-- `gateway_manifest` from server.py lines 335-368, parameterised by the
`timestamp` string computed at line 334 (signing time). -/
def gateway_manifest (timestamp : String) : GatewayManifest :=
  { claim_generator := "imanmontajabi.com/1.0"
    claim_generator_info := [("imanmontajabi.com", "1.0")]
    title := "imanmontajabi.com"
    assertions :=
      [ ⟨"c2pa.actions",
          .actions [⟨"c2pa.published", "imanmontajabi.com/1.0", timestamp⟩]⟩,
        ⟨"stds.schema-org.CreativeWork",
          .creativeWork [⟨"Organization", "imanmontajabi.com"⟩]⟩ ]
    ingredients := none }

/-- Observable trace of one publish_photo request: the HTTP result, whether
the Pillow redaction step (server.py lines 315-328) was entered, which fresh
manifest (if any) was handed to the c2pa signer, and whether the `finally`
block removed the request's temporary scratch directory. -/
structure PublishTrace where
  result : HttpResult Nat
  redactor_invoked : Bool
  signed_manifest : Option GatewayManifest
  temp_dir_removed : Bool
deriving DecidableEq

/-- `publish_photo` (server.py lines 248-407). External library calls are
passed as outcomes: `read` for the c2pa manifest reader (step 2), `redact`
for the Pillow decode/re-encode (step 3, error = any exception there, caught
by the catch-all and turned into HTTP 500), `sign` for the c2pa
Builder/Signer (step 4-5, likewise). `timestamp` is the ISO timestamp of
line 334. Every branch records `temp_dir_removed := true` because the
`finally: shutil.rmtree(temp_dir, ignore_errors=True)` runs on that exit
path. -/
def publish_photo (read : ReadOutcome) (redact sign : Except String Nat)
    (timestamp : String) : PublishTrace :=
  match read with
  | .failure e =>
    { result := .httpError 400 ("Cannot read C2PA manifest from uploaded image: " ++ e)
      redactor_invoked := false
      signed_manifest := none
      temp_dir_removed := true }
  | .ok store =>
    match store.manifests with
    | none =>
      { result := .httpError 400 "Rejected: no C2PA manifests found in the uploaded image."
        redactor_invoked := false
        signed_manifest := none
        temp_dir_removed := true }
    | some [] =>
      { result := .httpError 400 "Rejected: no C2PA manifests found in the uploaded image."
        redactor_invoked := false
        signed_manifest := none
        temp_dir_removed := true }
    | some (_ :: _) =>
      match store.validation_status with
      | some errors =>
        { result := .httpError 403
            ("Rejected: C2PA validation failed — " ++ String.intercalate ", " errors)
          redactor_invoked := false
          signed_manifest := none
          temp_dir_removed := true }
      | none =>
        match redact with
        | .error e =>
          { result := .httpError 500 e
            redactor_invoked := true
            signed_manifest := none
            temp_dir_removed := true }
        | .ok _ =>
          match sign with
          | .error e =>
            { result := .httpError 500 e
              redactor_invoked := true
              signed_manifest := some (gateway_manifest timestamp)
              temp_dir_removed := true }
          | .ok signed_bytes =>
            { result := .ok signed_bytes
              redactor_invoked := true
              signed_manifest := some (gateway_manifest timestamp)
              temp_dir_removed := true }

/-! ## Theorems -/

/-- C1: For every publish request whose artifact has zero manifests in its
manifest store (missing or empty "manifests" key), or whose manifest store
carries a non-empty validation-status list after chain verification, the
Orchestrator rejects the request (the result is an HTTPException, never a
success payload) and the Redactor step is never invoked on that artifact. -/
theorem publish_rejects_invalid_store
    (store : ManifestStore) (redact sign : Except String Nat) (ts : String)
    (h : store.manifests = none ∨ store.manifests = some [] ∨
         ∃ e es, store.validation_status = some (e :: es)) :
    (publish_photo (.ok store) redact sign ts).result.isOk = false ∧
    (publish_photo (.ok store) redact sign ts).redactor_invoked = false := by
  obtain ⟨ms, vs, am⟩ := store
  rcases h with h | h | ⟨e, es, h⟩
  · subst h; exact ⟨rfl, rfl⟩
  · subst h; exact ⟨rfl, rfl⟩
  · subst h
    rcases ms with _ | ⟨_ | ⟨m, rest⟩⟩
    · exact ⟨rfl, rfl⟩
    · exact ⟨rfl, rfl⟩
    · exact ⟨rfl, rfl⟩

/-- Witness for C1 at a concrete store with no "manifests" key. -/
theorem publish_rejects_invalid_store_witness :
    (publish_photo (.ok ⟨none, none, none⟩) (.ok 0) (.ok 0) "t").result.isOk = false ∧
    (publish_photo (.ok ⟨none, none, none⟩) (.ok 0) (.ok 0) "t").redactor_invoked = false :=
  publish_rejects_invalid_store ⟨none, none, none⟩ (.ok 0) (.ok 0) "t" (Or.inl rfl)

/-- C2: Every certificate issued by sign_csr — and likewise the gateway
certificate built at startup — carries exactly the mandated extension set:
BasicConstraints(ca=false) critical, KeyUsage with digitalSignature=true and
every other bit false (in particular keyCertSign=false) critical,
ExtendedKeyUsage(emailProtection) non-critical, a SubjectKeyIdentifier derived
from the subject's own public key, and an AuthorityKeyIdentifier derived from
the Trust Root's public key. -/
theorem sign_csr_extension_set
    (csr : CSR) (root_cert : Certificate) (root_key_pub serial : Nat)
    (now : Int) (cert_id : String)
    (gateway_pub gw_serial : Nat) (now1 now2 : Int) :
    (sign_csr_body csr root_cert root_key_pub serial now cert_id).certificate.extensions
      = specMandatedExtensions (keyDigest csr.public_key) (keyDigest root_key_pub) ∧
    (gateway_cert root_cert gateway_pub root_key_pub gw_serial now1 now2).extensions
      = specMandatedExtensions (keyDigest gateway_pub) (keyDigest root_key_pub) :=
  ⟨rfl, rfl⟩

/-- C3: For every accepted publish request, the freshly attached outbound
manifest is exactly `gateway_manifest ts`, whose assertion list consists of
exactly one action assertion (a c2pa.published event timestamped at signing
time) and exactly one authorship assertion naming the gateway organization,
and which carries no ingredient reference at all (no "ingredients" key). -/
theorem accepted_publish_manifest_shape
    (read : ReadOutcome) (redact sign : Except String Nat) (ts : String) (b : Nat)
    (h : (publish_photo read redact sign ts).result = .ok b) :
    (publish_photo read redact sign ts).signed_manifest = some (gateway_manifest ts) ∧
    (gateway_manifest ts).assertions =
      [ ⟨"c2pa.actions",
          .actions [⟨"c2pa.published", "imanmontajabi.com/1.0", ts⟩]⟩,
        ⟨"stds.schema-org.CreativeWork",
          .creativeWork [⟨"Organization", "imanmontajabi.com"⟩]⟩ ] ∧
    (gateway_manifest ts).ingredients = none := by
  refine ⟨?_, rfl, rfl⟩
  rcases read with e | ⟨ms, vs, am⟩
  · exact HttpResult.noConfusion h
  · rcases ms with _ | ⟨_ | ⟨m, rest⟩⟩
    · exact HttpResult.noConfusion h
    · exact HttpResult.noConfusion h
    · rcases vs with _ | errs
      · rcases redact with e | c
        · exact HttpResult.noConfusion h
        · rcases sign with e | sb
          · exact HttpResult.noConfusion h
          · rfl
      · exact HttpResult.noConfusion h

/-- Witness for C3 at a concrete accepted request. -/
theorem accepted_publish_manifest_shape_witness :
    (publish_photo (.ok ⟨some ["m1"], none, some "m1"⟩) (.ok 1) (.ok 2) "t0").signed_manifest
      = some (gateway_manifest "t0") ∧
    (gateway_manifest "t0").assertions =
      [ ⟨"c2pa.actions",
          .actions [⟨"c2pa.published", "imanmontajabi.com/1.0", "t0"⟩]⟩,
        ⟨"stds.schema-org.CreativeWork",
          .creativeWork [⟨"Organization", "imanmontajabi.com"⟩]⟩ ] ∧
    (gateway_manifest "t0").ingredients = none :=
  accepted_publish_manifest_shape (.ok ⟨some ["m1"], none, some "m1"⟩) (.ok 1) (.ok 2) "t0" 2 rfl

/-- C4: For every valid (parsed) CSR, the certificate issued by sign_csr has
issuer name equal to the Trust Root certificate's subject name, and its
AuthorityKeyIdentifier value equals the Trust Root certificate's
SubjectKeyIdentifier value, both being derived from the same root public key
(the root certificate being the one `generate` produces for that key). -/
theorem issued_cert_chains_to_root
    (root_pub root_serial : Nat) (root_now : Int)
    (csr : CSR) (serial : Nat) (now : Int) (cert_id : String) :
    sign_csr (.ok csr) (generate root_pub root_serial root_now) root_pub serial now cert_id
      = .ok (sign_csr_body csr (generate root_pub root_serial root_now) root_pub serial now cert_id) ∧
    (sign_csr_body csr (generate root_pub root_serial root_now) root_pub serial now cert_id).certificate.issuer
      = (generate root_pub root_serial root_now).subject ∧
    find_authority_key_identifier
        (sign_csr_body csr (generate root_pub root_serial root_now) root_pub serial now cert_id).certificate.extensions
      = find_subject_key_identifier (generate root_pub root_serial root_now).extensions :=
  ⟨rfl, rfl, rfl⟩

/-- C5 counterexample: the Gateway Identity certificate violates
"not-after = not-before + exactly 365 days". With both clock reads at 0, its
not-before is −5 minutes and its not-after is 365 days sharp, which differs
from not-before + 365 days by the 5-minute back-dating. -/
theorem gateway_validity_counterexample :
    ¬ ((gateway_cert (generate 0 0 0) 1 0 0 0 0).not_valid_after
        = (gateway_cert (generate 0 0 0) 1 0 0 0 0).not_valid_before + 365 * 1440) := by
  decide

/-- C5 amended: certificates returned by sign_csr have not-before =
issuance time − 5 minutes and not-after = not-before + exactly 365 days; the
Gateway Identity certificate has not-before = clock − 5 minutes but not-after
= clock + 365 days (two separate clock reads), i.e. with both reads at the
same instant its window is not-before + 365 days + 5 minutes. -/
theorem validity_window_amended
    (csr : CSR) (root_cert : Certificate) (root_key_pub serial : Nat)
    (now : Int) (cert_id : String) (gateway_pub gw_serial : Nat) (t : Int) :
    ((sign_csr_body csr root_cert root_key_pub serial now cert_id).certificate.not_valid_before
        = now - 5 ∧
     (sign_csr_body csr root_cert root_key_pub serial now cert_id).certificate.not_valid_after
        = (sign_csr_body csr root_cert root_key_pub serial now cert_id).certificate.not_valid_before
            + 365 * 1440) ∧
    ((gateway_cert root_cert gateway_pub root_key_pub gw_serial t t).not_valid_before
        = t - 5 ∧
     (gateway_cert root_cert gateway_pub root_key_pub gw_serial t t).not_valid_after
        = (gateway_cert root_cert gateway_pub root_key_pub gw_serial t t).not_valid_before
            + 365 * 1440 + 5) := by
  refine ⟨⟨rfl, rfl⟩, rfl, ?_⟩
  simp only [gateway_cert]
  omega

/-- C6 counterexample: a request whose CSR cannot be parsed is answered with
HTTP 500, which is not in the client-error status category — the catch-all
`except Exception` in sign_csr maps every failure, parse failures included,
to a server error. -/
theorem sign_csr_malformed_counterexample :
    sign_csr (.error "not a csr") (generate 0 0 0) 0 0 0 "id"
      = .httpError 500 "not a csr" ∧
    isClientErrorStatus 500 = false :=
  ⟨rfl, rfl⟩

/-- C6 amended: when the CSR cannot be parsed or its public key cannot be
extracted, sign_csr surfaces the error as HTTP 500 — the server-error status
category, the same catch-all category used for internal signing failures —
rather than a client-error status. -/
theorem sign_csr_malformed_amended
    (e : String) (root_cert : Certificate) (root_key_pub serial : Nat)
    (now : Int) (cert_id : String) :
    sign_csr (.error e) root_cert root_key_pub serial now cert_id
      = .httpError 500 e ∧
    isServerErrorStatus 500 = true :=
  ⟨rfl, rfl⟩

/-- C7: absence of the Trust Root files terminates the process with exit
code 1 before any request is served; a loaded root certificate that violates
the CA invariant (BasicConstraints missing, or present with ca=false) only
produces a warning and the process continues to serve requests. -/
theorem startup_fatal_vs_warning :
    load_root_ca .fileNotFound = .fatalExit 1 ∧
    (load_root_ca .fileNotFound).servesRequests = false ∧
    (∀ cert key_pub, (load_root_ca (.loaded cert key_pub)).servesRequests = true) ∧
    (∀ cert key_pub,
      (get_basic_constraints cert.extensions = none ∨
       ∃ pl, get_basic_constraints cert.extensions = some ⟨false, pl⟩) →
      load_root_ca (.loaded cert key_pub) = .serving true) := by
  refine ⟨rfl, rfl, ?_, ?_⟩
  · intro cert key_pub
    cases hbc : get_basic_constraints cert.extensions with
    | none => simp [load_root_ca, hbc, StartupOutcome.servesRequests]
    | some bc => simp [load_root_ca, hbc, StartupOutcome.servesRequests]
  · intro cert key_pub h
    rcases h with h | ⟨pl, h⟩ <;> simp [load_root_ca, h]

/-- Witness for C7 at a concrete load outcome and a concrete certificate
with no BasicConstraints extension. -/
theorem startup_fatal_vs_warning_witness :
    load_root_ca .fileNotFound = .fatalExit 1 ∧
    load_root_ca (.loaded ⟨[], [], 0, 0, 0, 0, []⟩ 0) = .serving true :=
  ⟨startup_fatal_vs_warning.1,
   startup_fatal_vs_warning.2.2.2 ⟨[], [], 0, 0, 0, 0, []⟩ 0 (Or.inl rfl)⟩

/-- C8: for every publish request — every manifest-read outcome, every
redaction outcome, every signing outcome — the per-request temporary scratch
directory is removed on the exit path taken. -/
theorem publish_temp_dir_always_removed
    (read : ReadOutcome) (redact sign : Except String Nat) (ts : String) :
    (publish_photo read redact sign ts).temp_dir_removed = true := by
  rcases read with e | ⟨ms, vs, am⟩
  · rfl
  · rcases ms with _ | ⟨_ | ⟨m, rest⟩⟩
    · rfl
    · rfl
    · rcases vs with _ | errs
      · rcases redact with e | c
        · rfl
        · rcases sign with e | sb <;> rfl
      · rfl

/-- C9: a manifest store whose "validation_status" key is present with an
empty list is still rejected with HTTP 403 (and the Redactor is never
reached), because the code tests mere key presence, even though no
validation-status entry exists. -/
theorem empty_validation_status_still_rejected
    (m : String) (ms : List String) (am : Option String)
    (redact sign : Except String Nat) (ts : String) :
    (publish_photo (.ok ⟨some (m :: ms), some [], am⟩) redact sign ts).result
      = .httpError 403 "Rejected: C2PA validation failed — " ∧
    (publish_photo (.ok ⟨some (m :: ms), some [], am⟩) redact sign ts).redactor_invoked
      = false :=
  ⟨rfl, rfl⟩

/-- C10: sign_csr never verifies the CSR's self-signature: for every parsed
CSR whose embedded signature is invalid for its public key (signature_valid
= false), a certificate is still issued, and the response is identical to the
one for the same CSR with a valid signature. -/
theorem sign_csr_ignores_csr_signature
    (subject : X509Name) (pk : Nat) (root_cert : Certificate)
    (root_key_pub serial : Nat) (now : Int) (cert_id : String) :
    sign_csr (.ok ⟨subject, pk, false⟩) root_cert root_key_pub serial now cert_id
      = .ok (sign_csr_body ⟨subject, pk, false⟩ root_cert root_key_pub serial now cert_id) ∧
    sign_csr (.ok ⟨subject, pk, false⟩) root_cert root_key_pub serial now cert_id
      = sign_csr (.ok ⟨subject, pk, true⟩) root_cert root_key_pub serial now cert_id :=
  ⟨rfl, rfl⟩

end Kibala
